import Mathlib

/-
Shallow embedding of the Nano Banana AI Editor repository:
  src/services/geminiService.ts  (edit-request client, startup key check)
  src/App.tsx                    (UI state wiring: intake, submit, render data)
The network call and file reader are modelled as explicit parameters; the
response shapes mirror the fields the source reads (candidates, content,
parts, inlineData) with Option for fields that may be absent in JS.
-/

namespace NanoBanana

/-- Inline binary payload of a content part: base64 data plus MIME type. -/
structure InlineData where
  data : String
  mimeType : String
deriving Repr, DecidableEq

/-- One content part of a request or response: either inline data or text
(both optional, as in the JS objects the source builds and reads). -/
structure Part where
  inlineData : Option InlineData
  text : Option String
deriving Repr, DecidableEq

/-- The `content` object of a candidate; its `parts` list may be absent. -/
structure Content where
  parts : Option (List Part)
deriving Repr, DecidableEq

/-- One response candidate; its `content` may be absent. -/
structure Candidate where
  content : Option Content
deriving Repr, DecidableEq

/-- The response of `ai.models.generateContent`; `candidates` may be absent. -/
structure GenerateResponse where
  candidates : Option (List Candidate)
deriving Repr, DecidableEq

/-- Outcome of the awaited `generateContent` call: it either rejects
(`throws`) or resolves with a response. -/
inductive CallOutcome where
  | throws
  | returns (response : GenerateResponse)
deriving Repr, DecidableEq

/-- The part list the source iterates:
`response.candidates?.[0]?.content?.parts || []` (geminiService.ts:41).
Optional chaining yields `[]` whenever `candidates` is absent or empty, the
first candidate has no `content`, or the content has no `parts`. -/
def responseParts (response : GenerateResponse) : List Part :=
  match response.candidates with
  | some (c :: _) =>
    match c.content with
    | some content => content.parts.getD []
    | none => []
  | _ => []

/-- The `for`-loop of geminiService.ts:41-45: return the `inlineData.data`
of the first part that has `inlineData`, scanning in order. -/
def scanParts : List Part → Option String
  | [] => none
  | p :: rest =>
    match p.inlineData with
    | some d => some d.data
    | none => scanParts rest

/-- The request parts built at geminiService.ts:22-33: one inline-data part
carrying the uploaded image, then one text part carrying the prompt. -/
def buildRequestParts (base64ImageData mimeType prompt : String) : List Part :=
  [ { inlineData := some { data := base64ImageData, mimeType := mimeType }, text := none },
    { inlineData := none, text := some prompt } ]

/-- The body of the `try` block after the call resolved (lines 41-47):
first inline-data part on success, else throw the no-image message. -/
def tryBody (response : GenerateResponse) : Except String String :=
  match scanParts (responseParts response) with
  | some data => .ok data
  | none => .error "No image data found in the API response."

/-- `editImageWithGemini` (geminiService.ts:14-53). `generate` models
`ai.models.generateContent` applied to the built request parts. The
`catch` block (lines 49-52) replaces ANY thrown error — including the
no-image throw from inside the `try` — with the generic transport message. -/
def editImageWithGemini (base64ImageData mimeType prompt : String)
    (generate : List Part → CallOutcome) : Except String String :=
  match generate (buildRequestParts base64ImageData mimeType prompt) with
  | .throws => .error "Failed to generate image with Gemini API."
  | .returns response =>
    match tryBody response with
    | .ok data => .ok data
    | .error _ => .error "Failed to generate image with Gemini API."

/-- The configured client built at geminiService.ts:12. -/
structure GoogleGenAI where
  apiKey : String
deriving Repr, DecidableEq

/-- Module-level startup of geminiService.ts (lines 5-12): read
`process.env.API_KEY` (absent env var modelled as `none`); `if (!API_KEY)`
throws for an absent OR empty key (JS falsiness), else the client constant
is built once from the key. -/
def startGeminiService (envApiKey : Option String) : Except String GoogleGenAI :=
  match envApiKey with
  | none => .error "API_KEY environment variable not set."
  | some k =>
    if k = "" then .error "API_KEY environment variable not set."
    else .ok { apiKey := k }

/-- JS `String.prototype.trim`: strip leading and trailing whitespace.
Executable character-list model so that concrete inputs reduce in the
kernel (Lean's built-in `String.trim` is defined by well-founded recursion
and does not). -/
def jsTrim (s : String) : String :=
  ⟨((s.data.dropWhile Char.isWhitespace).reverse.dropWhile Char.isWhitespace).reverse⟩

/-- JS `String.prototype.startsWith`, as an executable prefix test on the
character lists. -/
def jsStartsWith (s p : String) : Bool :=
  p.data.isPrefixOf s.data

/-- `url.split(',')[1]` of App.tsx:55 (with `""` standing for the JS
`undefined` of a comma-free URL, a case no claim exercises). -/
def urlBase64Data (url : String) : String :=
  (url.splitOn ",").getD 1 ""

/-- A browser `File`: its name and declared content type (`File.type`;
`type` is a Lean keyword, hence `ftype`). -/
structure File where
  name : String
  ftype : String
deriving Repr, DecidableEq

/-- `ImageState` of App.tsx:7-10: the file handle and its data URL. -/
structure ImageState where
  file : File
  url : String
deriving Repr, DecidableEq

/-- The five `useState` cells of App.tsx:13-17. -/
structure AppState where
  originalImage : Option ImageState
  editedImageUrl : Option String
  prompt : String
  isLoading : Bool
  error : Option String
deriving Repr, DecidableEq

/-- `handleFileChange` (App.tsx:19-31). `selected` is
`event.target.files?.[0]`; `fileToBase64` models the data-URL encoder from
utils/fileUtils (not itself read here — only its result is stored). A
non-`image/` type only sets the error; otherwise error and edited result
are cleared and the encoded image is stored. -/
def handleFileChange (s : AppState) (selected : Option File)
    (fileToBase64 : File → String) : AppState :=
  match selected with
  | none => s
  | some file =>
    if ¬ jsStartsWith file.ftype "image/" then
      { s with error := some "Please upload a valid image file (PNG, JPG, etc.)." }
    else
      { s with error := none, editedImageUrl := none,
               originalImage := some { file := file, url := fileToBase64 file } }

/-- The state right after the three setters at App.tsx:49-51, i.e. at the
moment a validated edit request starts (before the await). -/
def submitStartState (s : AppState) : AppState :=
  { s with isLoading := true, error := none, editedImageUrl := none }

/-- `handleSubmit` (App.tsx:43-67). Returns the final state together with
whether the network call was made. Validation failure (no image, or prompt
trims to empty) sets only the validation error. Otherwise the start state
is taken, `url.split(',')[1]` and `file.type` feed `editImageWithGemini`;
success stores the rebuilt data URL, rejection stores the generic message;
`finally` clears the loading flag either way. -/
def handleSubmit (s : AppState) (generate : List Part → CallOutcome) :
    AppState × Bool :=
  match s.originalImage with
  | none => ({ s with error := some "Please upload an image and enter a prompt." }, false)
  | some img =>
    if jsTrim s.prompt = "" then
      ({ s with error := some "Please upload an image and enter a prompt." }, false)
    else
      let started := submitStartState s
      let base64Data := urlBase64Data img.url
      let mimeType := img.file.ftype
      match editImageWithGemini base64Data mimeType s.prompt generate with
      | .ok newImageBase64 =>
        ({ started with
             editedImageUrl := some ("data:" ++ mimeType ++ ";base64," ++ newImageBase64),
             isLoading := false }, true)
      | .error _ =>
        ({ started with
             error := some "Failed to edit image. Please try again.",
             isLoading := false }, true)

/-- The `download` attribute of the result link (App.tsx:174):
`edited-` followed by `originalImage?.file.name || 'image.png'` (JS `||`
falls back for an absent image and for an empty name). -/
def downloadName (s : AppState) : String :=
  let n := match s.originalImage with
    | some img => img.file.name
    | none => ""
  "edited-" ++ (if n = "" then "image.png" else n)

/-- The part list contributed by one candidate, as read at
geminiService.ts:41 when that candidate is `candidates[0]`. -/
def candidateParts (c : Candidate) : List Part :=
  match c.content with
  | some content => content.parts.getD []
  | none => []

/-- Example response used by C1's witness: two parts both carrying inline
image data, the first with payload "first", the second with "second". -/
def twoImageResp : GenerateResponse :=
  { candidates := some
      [ { content := some
            { parts := some
                [ { inlineData := some { data := "first", mimeType := "image/png" }, text := none },
                  { inlineData := some { data := "second", mimeType := "image/png" }, text := none } ] } } ] }

/-- Example response used for C2: a single text-only part, so no part
carries inline image data. -/
def noImageResp : GenerateResponse :=
  { candidates := some
      [ { content := some
            { parts := some [ { inlineData := none, text := some "cannot comply" } ] } } ] }

/-- Example candidate used for C9: text-only, no inline image data. -/
def textOnlyCandidate : Candidate :=
  { content := some { parts := some [ { inlineData := none, text := some "t" } ] } }

/-- Example candidate used for C9: it DOES carry inline image data, but
sits in second position so the source never looks at it. -/
def hiddenImageCandidate : Candidate :=
  { content := some
      { parts := some
          [ { inlineData := some { data := "hidden", mimeType := "image/png" }, text := none } ] } }

/-- Example file used by the scenario witnesses: `photo.png` with declared
MIME type `image/png`. -/
def photoFile : File := { name := "photo.png", ftype := "image/png" }

/-- Example non-image file used by C5's witness. -/
def pdfFile : File := { name := "doc.pdf", ftype := "application/pdf" }

/-- Example state with `photo.png` loaded, prompt "add a hat", and a stale
edited result on display. -/
def loadedState : AppState :=
  { originalImage := some { file := photoFile, url := "data:image/png;base64,AAAA" },
    editedImageUrl := some "data:image/png;base64,OLD",
    prompt := "add a hat",
    isLoading := false,
    error := none }

/-- Example state with `photo.png` loaded but a whitespace-only prompt. -/
def blockedState : AppState :=
  { originalImage := some { file := photoFile, url := "data:image/png;base64,AAAA" },
    editedImageUrl := some "data:image/png;base64,OLD",
    prompt := "   ",
    isLoading := false,
    error := none }

/-- Example response used by C4's witness: one part with inline image data
"Zm9v". -/
def oneImageResp : GenerateResponse :=
  { candidates := some
      [ { content := some
            { parts := some
                [ { inlineData := some { data := "Zm9v", mimeType := "image/png" }, text := none } ] } } ] }

/-- Helper: the scan skips every leading part without inline data and
returns the data of the first part that has some. -/
theorem scanParts_first (pre post : List Part) (p : Part) (d : InlineData)
    (hpre : ∀ q ∈ pre, q.inlineData = none) (hp : p.inlineData = some d) :
    scanParts (pre ++ p :: post) = some d.data := by
  induction pre with
  | nil => simp [scanParts, hp]
  | cons q rest ih =>
    have hq : q.inlineData = none := hpre q (by simp)
    simp only [List.cons_append, scanParts, hq]
    exact ih fun r hr => hpre r (by simp [hr])

/-- C1: for every response whose ordered part list contains at least one
part with inline image data, `editImageWithGemini` returns the data bytes
of the first such part, ignoring all later parts. -/
theorem C1_first_inline_part_wins (b m t : String) (r : GenerateResponse)
    (pre post : List Part) (p : Part) (d : InlineData)
    (hr : responseParts r = pre ++ p :: post)
    (hpre : ∀ q ∈ pre, q.inlineData = none) (hp : p.inlineData = some d) :
    editImageWithGemini b m t (fun _ => .returns r) = .ok d.data := by
  simp [editImageWithGemini, tryBody, hr, scanParts_first pre post p d hpre hp]

/-- C1 witness: on a concrete response with two inline-image parts, the
payload of the first part ("first") is returned and "second" is ignored. -/
theorem C1_witness :
    editImageWithGemini "img" "image/png" "add a hat" (fun _ => .returns twoImageResp) =
      .ok "first" := by
  have h := C1_first_inline_part_wins "img" "image/png" "add a hat" twoImageResp
    []
    [ { inlineData := some { data := "second", mimeType := "image/png" }, text := none } ]
    { inlineData := some { data := "first", mimeType := "image/png" }, text := none }
    { data := "first", mimeType := "image/png" }
    (by rfl) (by simp) (by rfl)
  exact h

/-- C2 counterexample: on a concrete response with zero inline-image parts
the caller observes the generic transport message, NOT the claimed
"No image data found in the API response." — the internal throw at
geminiService.ts:47 is swallowed by the catch at line 49. -/
theorem C2_counterexample :
    editImageWithGemini "img" "image/png" "add a hat" (fun _ => .returns noImageResp) =
        .error "Failed to generate image with Gemini API." ∧
      editImageWithGemini "img" "image/png" "add a hat" (fun _ => .returns noImageResp) ≠
        .error "No image data found in the API response." := by
  constructor
  · rfl
  · intro h
    have h2 : "Failed to generate image with Gemini API." =
        "No image data found in the API response." :=
      Except.error.inj ((rfl :
        editImageWithGemini "img" "image/png" "add a hat" (fun _ => .returns noImageResp) =
          .error "Failed to generate image with Gemini API.").symm.trans h)
    exact absurd h2 (by decide)

/-- C2 amended: for every response with zero inline-image parts the call
fails; the `try` body raises "No image data found in the API response.",
but the catch-all rewraps it, so the caller observes
"Failed to generate image with Gemini API.". -/
theorem C2_no_image_part (b m t : String) (r : GenerateResponse)
    (h : scanParts (responseParts r) = none) :
    tryBody r = .error "No image data found in the API response." ∧
      editImageWithGemini b m t (fun _ => .returns r) =
        .error "Failed to generate image with Gemini API." := by
  constructor
  · simp [tryBody, h]
  · simp [editImageWithGemini, tryBody, h]

/-- C2 witness: the amended claim instantiated at the concrete no-image
response. -/
theorem C2_witness :
    tryBody noImageResp = .error "No image data found in the API response." ∧
      editImageWithGemini "img" "image/png" "add a hat" (fun _ => .returns noImageResp) =
        .error "Failed to generate image with Gemini API." :=
  C2_no_image_part "img" "image/png" "add a hat" noImageResp (by rfl)

/-- Helper: the scanned list comes from the first candidate alone. -/
theorem responseParts_cons (c : Candidate) (rest : List Candidate) :
    responseParts { candidates := some (c :: rest) } = candidateParts c := by
  cases c with
  | mk content => cases content <;> rfl

/-- C9: only `candidates[0]` is scanned — if the first candidate's parts
contain no inline image data, the call fails exactly as if no image part
existed, whatever the later candidates contain. -/
theorem C9_only_first_candidate (b m t : String) (c : Candidate)
    (rest : List Candidate) (h : scanParts (candidateParts c) = none) :
    responseParts { candidates := some (c :: rest) } =
        responseParts { candidates := some [c] } ∧
      editImageWithGemini b m t
          (fun _ => .returns { candidates := some (c :: rest) }) =
        .error "Failed to generate image with Gemini API." := by
  constructor
  · rw [responseParts_cons, responseParts_cons]
  · simp [editImageWithGemini, tryBody, responseParts_cons, h]

/-- C9 witness: a concrete response whose first candidate is text-only
while the second candidate carries inline image data still fails. -/
theorem C9_witness :
    responseParts { candidates := some [textOnlyCandidate, hiddenImageCandidate] } =
        responseParts { candidates := some [textOnlyCandidate] } ∧
      editImageWithGemini "img" "image/png" "add a hat"
          (fun _ => .returns { candidates := some [textOnlyCandidate, hiddenImageCandidate] }) =
        .error "Failed to generate image with Gemini API." :=
  C9_only_first_candidate "img" "image/png" "add a hat"
    textOnlyCandidate [hiddenImageCandidate] (by rfl)

/-- C10: for EVERY response in which `candidates` is absent, or the first
candidate's `content` is absent, or that content's `parts` list is absent,
the optional-chaining fallback yields the empty part list — the scan is
total — and the function fails through its error path instead of crashing
on a null access, whatever the remaining candidates hold. -/
theorem C10_absent_fields_safe (b m t : String) (r : GenerateResponse)
    (h : r.candidates = none ∨
      ∃ c rest, r.candidates = some (c :: rest) ∧
        (c.content = none ∨ ∃ ct, c.content = some ct ∧ ct.parts = none)) :
    responseParts r = [] ∧
      editImageWithGemini b m t (fun _ => .returns r) =
        .error "Failed to generate image with Gemini API." := by
  have hparts : responseParts r = [] := by
    rcases h with h | ⟨c, rest, hc, h⟩
    · simp [responseParts, h]
    · rcases h with h | ⟨ct, hct, hp⟩
      · simp [responseParts, hc, h]
      · simp [responseParts, hc, hct, hp]
  exact ⟨hparts, by simp [editImageWithGemini, tryBody, hparts, scanParts]⟩

/-- C10 witness: a concrete response whose first candidate has no
`content` while a second candidate carries inline image data — in the
claim's domain, yet outside any single-candidate instance check. -/
theorem C10_witness :
    responseParts { candidates := some [ { content := none }, hiddenImageCandidate ] } = [] ∧
      editImageWithGemini "img" "image/png" "add a hat"
          (fun _ => .returns { candidates := some [ { content := none }, hiddenImageCandidate ] }) =
        .error "Failed to generate image with Gemini API." :=
  C10_absent_fields_safe "img" "image/png" "add a hat"
    { candidates := some [ { content := none }, hiddenImageCandidate ] }
    (Or.inr ⟨{ content := none }, [hiddenImageCandidate], rfl, Or.inl rfl⟩)

/-- C3: when no image is loaded or the prompt trims to empty, `handleSubmit`
makes no network call, shows the validation error, and leaves the loaded
image and the edited result unchanged. -/
theorem C3_blocked_submission (s : AppState) (g : List Part → CallOutcome)
    (h : s.originalImage = none ∨ jsTrim s.prompt = "") :
    (handleSubmit s g).2 = false ∧
      (handleSubmit s g).1.error = some "Please upload an image and enter a prompt." ∧
      (handleSubmit s g).1.originalImage = s.originalImage ∧
      (handleSubmit s g).1.editedImageUrl = s.editedImageUrl := by
  rcases h with h | h
  · simp [handleSubmit, h]
  · cases himg : s.originalImage with
    | none => simp [handleSubmit, himg]
    | some img => simp [handleSubmit, himg, h]

/-- C3 witness: `photo.png` loaded, whitespace-only prompt — no network
call, validation error shown, image and edited result untouched. -/
theorem C3_witness :
    (handleSubmit blockedState (fun _ => .throws)).2 = false ∧
      (handleSubmit blockedState (fun _ => .throws)).1.error =
        some "Please upload an image and enter a prompt." ∧
      (handleSubmit blockedState (fun _ => .throws)).1.originalImage =
        blockedState.originalImage ∧
      (handleSubmit blockedState (fun _ => .throws)).1.editedImageUrl =
        blockedState.editedImageUrl :=
  C3_blocked_submission blockedState (fun _ => .throws) (Or.inr (by decide))

/-- C4: on a successful edit request the rendered result is the data URL
built from the file's declared MIME type and the returned base64 payload,
and the download link is named after the original file. -/
theorem C4_success_render (s : AppState) (img : ImageState)
    (g : List Part → CallOutcome) (b : String)
    (himg : s.originalImage = some img) (hp : ¬ jsTrim s.prompt = "")
    (hname : ¬ img.file.name = "")
    (hg : editImageWithGemini (urlBase64Data img.url) img.file.ftype s.prompt g =
      .ok b) :
    (handleSubmit s g).1.editedImageUrl =
        some ("data:" ++ img.file.ftype ++ ";base64," ++ b) ∧
      downloadName (handleSubmit s g).1 = "edited-" ++ img.file.name := by
  simp [handleSubmit, himg, hp, hg, downloadName, submitStartState, hname]

/-- C4 witness: the spec scenario — `photo.png`, prompt "add a hat", the
server returns one inline part "Zm9v"; the UI shows
`data:image/png;base64,Zm9v` and the download link `edited-photo.png`. -/
theorem C4_witness :
    (handleSubmit loadedState (fun _ => .returns oneImageResp)).1.editedImageUrl =
        some "data:image/png;base64,Zm9v" ∧
      downloadName (handleSubmit loadedState (fun _ => .returns oneImageResp)).1 =
        "edited-photo.png" := by
  exact C4_success_render loadedState { file := photoFile, url := "data:image/png;base64,AAAA" }
    (fun _ => .returns oneImageResp) "Zm9v" rfl (by decide) (by decide) (by rfl)

/-- C5: a file whose declared content type does not start with `image/` is
rejected with the invalid-file message and the loaded image, the edited
result, and the prompt are all left unchanged. -/
theorem C5_invalid_file_type (s : AppState) (f : File) (enc : File → String)
    (h : ¬ jsStartsWith f.ftype "image/") :
    (handleFileChange s (some f) enc).originalImage = s.originalImage ∧
      (handleFileChange s (some f) enc).editedImageUrl = s.editedImageUrl ∧
      (handleFileChange s (some f) enc).prompt = s.prompt ∧
      (handleFileChange s (some f) enc).error =
        some "Please upload a valid image file (PNG, JPG, etc.)." := by
  simp [handleFileChange, h]

/-- C5 witness: uploading `doc.pdf` (type `application/pdf`) over a loaded
state changes nothing but the error message. -/
theorem C5_witness :
    (handleFileChange loadedState (some pdfFile) (fun _ => "enc")).originalImage =
        loadedState.originalImage ∧
      (handleFileChange loadedState (some pdfFile) (fun _ => "enc")).editedImageUrl =
        loadedState.editedImageUrl ∧
      (handleFileChange loadedState (some pdfFile) (fun _ => "enc")).prompt =
        loadedState.prompt ∧
      (handleFileChange loadedState (some pdfFile) (fun _ => "enc")).error =
        some "Please upload a valid image file (PNG, JPG, etc.)." :=
  C5_invalid_file_type loadedState pdfFile (fun _ => "enc") (by decide)

/-- C6: the edited result is cleared on every successful choice of a new
image (whatever the prior state) and at the start of every edit request
(whatever the prior state). -/
theorem C6_edit_result_cleared (s : AppState) (f : File) (enc : File → String)
    (h : jsStartsWith f.ftype "image/") :
    (handleFileChange s (some f) enc).editedImageUrl = none ∧
      (submitStartState s).editedImageUrl = none := by
  constructor
  · simp [handleFileChange, h]
  · rfl

/-- C6 witness: from a state showing a stale edited result, choosing
`photo.png` clears it, and so does starting a request. -/
theorem C6_witness :
    (handleFileChange loadedState (some photoFile) (fun _ => "enc")).editedImageUrl = none ∧
      (submitStartState loadedState).editedImageUrl = none :=
  C6_edit_result_cleared loadedState photoFile (fun _ => "enc") (by decide)

/-- C7: when the network call rejects, the submission ends with the
generic UI error shown, the loading flag cleared, and no edited image
displayed, while the client-level failure carries
"Failed to generate image with Gemini API.". -/
theorem C7_rejected_call (s : AppState) (img : ImageState)
    (himg : s.originalImage = some img) (hp : ¬ jsTrim s.prompt = "") :
    (handleSubmit s (fun _ => .throws)).1.error =
        some "Failed to edit image. Please try again." ∧
      (handleSubmit s (fun _ => .throws)).1.isLoading = false ∧
      (handleSubmit s (fun _ => .throws)).1.editedImageUrl = none ∧
      editImageWithGemini (urlBase64Data img.url) img.file.ftype s.prompt
          (fun _ => .throws) =
        .error "Failed to generate image with Gemini API." := by
  refine ⟨?_, ?_, ?_, rfl⟩ <;>
    simp [handleSubmit, himg, hp, editImageWithGemini, submitStartState]

/-- C7 witness: the loaded scenario state with a rejecting call. -/
theorem C7_witness :
    (handleSubmit loadedState (fun _ => .throws)).1.error =
        some "Failed to edit image. Please try again." ∧
      (handleSubmit loadedState (fun _ => .throws)).1.isLoading = false ∧
      (handleSubmit loadedState (fun _ => .throws)).1.editedImageUrl = none ∧
      editImageWithGemini (urlBase64Data "data:image/png;base64,AAAA")
          "image/png" "add a hat" (fun _ => .throws) =
        .error "Failed to generate image with Gemini API." :=
  C7_rejected_call loadedState { file := photoFile, url := "data:image/png;base64,AAAA" }
    rfl (by decide)

/-- C8 counterexample: `API_KEY` present in the environment but empty —
the claim says a present credential yields a constructed client, yet the
source's `if (!API_KEY)` throws (JS falsiness of ""), so startup fails. -/
theorem C8_counterexample :
    startGeminiService (some "") = .error "API_KEY environment variable not set." ∧
      (startGeminiService (some "")).toOption = none :=
  ⟨rfl, rfl⟩

/-- C8 amended: an absent OR empty API key is fatal at startup, before any
request; a present non-empty key yields the configured client (built once
as a module-level constant from the key). -/
theorem C8_startup_key_check (k : String) (hk : ¬ k = "") :
    startGeminiService none = .error "API_KEY environment variable not set." ∧
      startGeminiService (some "") = .error "API_KEY environment variable not set." ∧
      startGeminiService (some k) = .ok { apiKey := k } := by
  refine ⟨rfl, rfl, ?_⟩
  simp [startGeminiService, hk]

/-- C8 witness: the amended claim at the concrete key "secret-key". -/
theorem C8_witness :
    startGeminiService none = .error "API_KEY environment variable not set." ∧
      startGeminiService (some "") = .error "API_KEY environment variable not set." ∧
      startGeminiService (some "secret-key") = .ok { apiKey := "secret-key" } :=
  C8_startup_key_check "secret-key" (by decide)

end NanoBanana
